import Mathlib

/-!
Shallow embedding of the Personal-Assistant tool layer.

Source files embedded:
* `Jarvis_window_CTRL.py` — Windows-control tool handlers returning a
  success/failure dictionary (`{"ok": bool, ...}`).
* `agent.py` — file/screen reading tool handlers returning a string.

Python exceptions are modelled with `Except String`: a primitive that may
raise is a value of type `Except String α`, a `try ... except Exception as e`
block is the explicit `pyTry` combinator, and a handler whose result type is
`Except String R` returns `.error e` exactly when an exception would
propagate out of the Python function to its caller.  Host-dependent
behaviour (subprocess outcomes, filesystem contents, library availability,
OCR results) is collected in an `Env` record of oracles, so every handler is
a total function of the host state.
-/

/-- A Python value appearing in a tool result dictionary. -/
inductive Value where
  | vBool (b : Bool)
  | vStr (s : String)
  | vInt (n : Int)
  | vNone
  | vList (xs : List String)
deriving DecidableEq

/-- A tool result dictionary, in literal key order. -/
abbrev Envelope := List (String × Value)

/-- Dictionary lookup (`d.get(k)` / `d[k]`): first binding of the key. -/
def envGet (e : Envelope) (k : String) : Option Value :=
  (e.find? (fun kv => kv.1 == k)).map (fun kv => kv.2)

/-- The failure envelope `{"ok": False, "error": str(e)}`. -/
def failEnv (e : String) : Envelope :=
  [("ok", Value.vBool false), ("error", Value.vStr e)]

/-- Python `try: body except Exception as e: handler(e)`. -/
def pyTry {α : Type} (body : Except String α) (handler : String → Except String α) :
    Except String α :=
  match body with
  | .ok a => .ok a
  | .error e => handler e

/-- True when the computation returns a value, i.e. no exception propagates. -/
def noRaise {α : Type} : Except String α → Bool
  | .ok _ => true
  | .error _ => false

/-- Python truthiness of an optional string: `None` and `""` are falsy. -/
def pyTruthyOpt : Option String → Bool
  | none => false
  | some s => !(s == "")

/-- Python `a or b` on optional strings (`None`/`""` falsy). -/
def pyOrOpt (a b : Option String) : Option String :=
  if pyTruthyOpt a then a else b

/-- An optional string as a dictionary value (`None` becomes `null`). -/
def optVal : Option String → Value
  | some s => Value.vStr s
  | none => Value.vNone

/-- ASCII whitespace, as stripped by Python `str.strip()`. -/
def isPySpace (c : Char) : Bool :=
  c == ' ' || c == '\t' || c == '\n' || c == '\r' || c == '\x0b' || c == '\x0c'

/-- Python `s.strip()`: drop whitespace from both ends. -/
def pyStrip (s : String) : String :=
  String.mk (((s.data.dropWhile isPySpace).reverse.dropWhile isPySpace).reverse)

/-- Python `s.lower()` (ASCII). -/
def pyLower (s : String) : String :=
  String.mk (s.data.map Char.toLower)

/-- Python `s.replace(c, rep)` for a one-character pattern. -/
def pyReplaceChar (c : Char) (rep : String) (s : String) : String :=
  String.mk (s.data.flatMap (fun ch => if ch == c then rep.data else [ch]))

/-- Python slicing `s[:n]`. -/
def pyTake (n : Nat) (s : String) : String :=
  String.mk (s.data.take n)

/-- Does the second list start with the first one (the pattern)? -/
def listStartsWith : List Char → List Char → Bool
  | [], _ => true
  | _ :: _, [] => false
  | p :: ps, c :: cs => p == c && listStartsWith ps cs

/-- Does `sub` occur as a contiguous run inside the list? -/
def listContainsSub (sub : List Char) : List Char → Bool
  | [] => sub.isEmpty
  | c :: cs => listStartsWith sub (c :: cs) || listContainsSub sub cs

/-- Python substring test `sub in s`. -/
def strContains (s sub : String) : Bool :=
  listContainsSub sub.data s.data

/-- Python substring containment as a proposition: `sub` occurs in `s`. -/
def strContainsP (s sub : String) : Prop :=
  ∃ pre post, s = pre ++ sub ++ post

/-- Joining a directory and a child name (`Path dir / name`). -/
def pathJoin (a b : String) : String := a ++ "/" ++ b

/-- Outcome of `asyncio.create_subprocess_exec` + `communicate` for a command:
either the process ran to completion, or spawning/communicating raised. -/
inductive SpawnOutcome where
  | ran (returncode : Int) (stdout stderr : String)
  | exn (e : String)
deriving DecidableEq

/-- The dictionary returned by `_run_async`: `returncode`/`stdout`/`stderr`
on completion, or `returncode = -1` with only an `error` key on exception.
Absent keys are `none` (so `.get` returns `None` on them). -/
structure RunDict where
  returncode : Int
  stdout : Option String
  stderr : Option String
  error : Option String
deriving DecidableEq

/-- Embeds `_run_async` (Jarvis_window_CTRL.py): run the command, decode and
strip the captured streams; any exception is caught and converted to a
dictionary carrying only `returncode = -1` and the error text. -/
def _run_async (spawn : List String → SpawnOutcome) (cmd : List String) : RunDict :=
  match spawn cmd with
  | .ran rc out err =>
      { returncode := rc, stdout := some (pyStrip out), stderr := some (pyStrip err), error := none }
  | .exn e =>
      { returncode := -1, stdout := none, stderr := none, error := some e }

/-- Result of `psutil.sensors_battery()` when a battery is present. -/
structure BatteryState where
  percent : Int
  power_plugged : Bool
deriving DecidableEq

/-- Outcome of the camera capture closure in `capture_photo`. -/
inductive CaptureOutcome where
  | notAvailable
  | readFailed
  | saved
  | raised (e : String)
deriving DecidableEq

/-- Outcome of `read_text_file`'s stack of encoding attempts:
a decoded content, a `UnicodeDecodeError` from every encoding, or another
exception from the first `open`. -/
inductive ReadTextOutcome where
  | ok (content : String)
  | decodeFailAll (e : String)
  | otherErr (e : String)
deriving DecidableEq

/-- The host state every handler runs against: one oracle per external
primitive the Python code calls (subprocesses, `os.startfile`,
`webbrowser.open`, ctypes, filesystem queries, optional libraries, OCR). -/
structure Env where
  spawn : List String → SpawnOutcome
  startfile : String → Except String Unit
  browserOpen : String → Except String Unit
  osSystem : String → Int
  setSuspendState : Except String Bool
  lockWorkStation : Except String Unit
  home : String
  cwd : String
  resolve : String → String
  pathExists : String → Bool
  isDir : String → Bool
  iterdir : String → Except String (List String)
  rglobPdfs : String → List String
  which : String → Option String
  spawnExec : String → Except String Unit
  glob : String → String → List String
  psutilAvailable : Bool
  battery : Except String (Option BatteryState)
  cv2Available : Bool
  loopTimeMs : Int
  mkPhotoDir : Except String Unit
  capture : Int → CaptureOutcome
  tesseractPath : Bool
  tesseractMsg : String
  grabScreen : Except String String
  grabArea : Int → Int → Int → Int → Except String String
  pdfSupport : Bool
  docxSupport : Bool
  readPdf : String → Except String String
  readDocx : String → Except String String
  readText : String → ReadTextOutcome

/-- A directory tree abstracted to the set of existing directories and the
set of paths occupied by non-directories. -/
structure FS where
  dirs : List String
  files : List String
deriving DecidableEq

/-- Embeds `Path.mkdir(parents=True, exist_ok=True)`: raises
`FileExistsError` when a non-directory occupies the path; otherwise ensures
the directory (and, in this abstraction, its parents) exists, succeeding
silently when it already does. -/
def FS.mkdirParentsExistOk (fs : FS) (p : String) : Except String FS :=
  if p ∈ fs.files then .error ("FileExistsError: " ++ p)
  else .ok { fs with dirs := if p ∈ fs.dirs then fs.dirs else p :: fs.dirs }

/-- Embeds `shutdown_system` (Jarvis_window_CTRL.py). -/
def shutdown_system (env : Env) (force : Bool) : Except String Envelope :=
  pyTry (do
    let cmd := ["shutdown", "/s", "/t", "0"] ++ (if force then ["/f"] else [])
    let _ := _run_async env.spawn cmd
    pure [("ok", Value.vBool true), ("action", Value.vStr "shutdown"),
          ("cmd", Value.vStr (String.intercalate " " cmd))])
  (fun e => .ok (failEnv e))

/-- Embeds `restart_system` (Jarvis_window_CTRL.py). -/
def restart_system (env : Env) (force : Bool) : Except String Envelope :=
  pyTry (do
    let cmd := ["shutdown", "/r", "/t", "0"] ++ (if force then ["/f"] else [])
    let _ := _run_async env.spawn cmd
    pure [("ok", Value.vBool true), ("action", Value.vStr "restart"),
          ("cmd", Value.vStr (String.intercalate " " cmd))])
  (fun e => .ok (failEnv e))

/-- Embeds `cancel_shutdown` (Jarvis_window_CTRL.py): exit code 0 is Success;
any other exit code (including the "no shutdown pending" case the source
comments on) yields `ok=False` with `error = stderr or stdout`. -/
def cancel_shutdown (env : Env) : Except String Envelope :=
  pyTry (do
    let res := _run_async env.spawn ["shutdown", "/a"]
    if res.returncode == 0 then
      pure [("ok", Value.vBool true), ("action", Value.vStr "cancel_shutdown")]
    else
      pure [("ok", Value.vBool false), ("error", optVal (pyOrOpt res.stderr res.stdout))])
  (fun e => .ok (failEnv e))

/-- Embeds `sleep_system` (Jarvis_window_CTRL.py): a ctypes call with a
`rundll32` fallback on any exception, all inside an outer catch-all. -/
def sleep_system (env : Env) : Except String Envelope :=
  pyTry
    (pyTry (do
        let rc ← env.setSuspendState
        pure [("ok", Value.vBool true), ("action", Value.vStr "sleep"),
              ("rc", Value.vBool rc)])
      (fun _ => do
        let _ := env.osSystem "rundll32.exe powrprof.dll,SetSuspendState 0,1,0"
        pure [("ok", Value.vBool true), ("action", Value.vStr "sleep"),
              ("fallback", Value.vBool true)]))
    (fun e => .ok (failEnv e))

/-- Embeds `lock_screen` (Jarvis_window_CTRL.py). -/
def lock_screen (env : Env) : Except String Envelope :=
  pyTry (do
    let _ ← env.lockWorkStation
    pure [("ok", Value.vBool true), ("action", Value.vStr "lock_screen")])
  (fun e => .ok (failEnv e))

/-- Embeds `create_folder` (Jarvis_window_CTRL.py): default path is
`Path.home() / "NewFolder_Jarvis"`, directory created with
`parents=True, exist_ok=True`, success payload is the resolved path. -/
def create_folder (env : Env) (fs : FS) (path : Option String) :
    Except String (Envelope × FS) :=
  pyTry (do
    let p := if pyTruthyOpt path then path.getD "" else pathJoin env.home "NewFolder_Jarvis"
    let fs2 ← fs.mkdirParentsExistOk p
    pure ([("ok", Value.vBool true), ("path", Value.vStr (env.resolve p))], fs2))
  (fun e => .ok (failEnv e, fs))

/-- Embeds `list_folder_items` (Jarvis_window_CTRL.py): defaults to the
current working directory, rejects non-existing or non-directory paths, and
returns the path as given (`str(p)`, not resolved) with the item names. -/
def list_folder_items (env : Env) (path : Option String) : Except String Envelope :=
  pyTry (do
    let p := if pyTruthyOpt path then path.getD "" else env.cwd
    if !env.pathExists p || !env.isDir p then
      pure (failEnv "Invalid directory")
    else do
      let items ← env.iterdir p
      pure [("ok", Value.vBool true), ("path", Value.vStr p), ("items", Value.vList items)])
  (fun e => .ok (failEnv e))

/-- Embeds `open_file` (Jarvis_window_CTRL.py): with no path it opens the
Documents folder without any existence check; with a path it checks
existence, then opens the directory or file, reporting the unresolved path. -/
def open_file (env : Env) (path : Option String) : Except String Envelope :=
  pyTry (do
    if !pyTruthyOpt path then
      let d := pathJoin env.home "Documents"
      let _ ← env.startfile d
      pure [("ok", Value.vBool true), ("opened", Value.vStr d)]
    else
      let p := path.getD ""
      if !env.pathExists p then
        pure (failEnv ("Path not found: " ++ p))
      else if env.isDir p then do
        let _ ← env.startfile p
        pure [("ok", Value.vBool true), ("opened", Value.vStr p)]
      else do
        let _ ← env.startfile p
        pure [("ok", Value.vBool true), ("opened", Value.vStr p)])
  (fun e => .ok (failEnv e))

/-- Embeds `open_pdf_in_folder` (Jarvis_window_CTRL.py). -/
def open_pdf_in_folder (env : Env) (folder : Option String) : Except String Envelope :=
  pyTry (do
    let f := if pyTruthyOpt folder then folder.getD "" else pathJoin env.home "Documents"
    if !env.pathExists f || !env.isDir f then
      pure (failEnv "Invalid folder")
    else
      match env.rglobPdfs f with
      | [] => pure (failEnv "No PDF files found")
      | pdf :: _ => do
          let _ ← env.startfile pdf
          pure [("ok", Value.vBool true), ("opened", Value.vStr pdf)])
  (fun e => .ok (failEnv e))

/-- Embeds `run_application_or_media` (Jarvis_window_CTRL.py): try the
executable via `shutil.which` (subprocess with `startfile` fallback), then
an existing path, then the first media file in the folder (`Videos` default)
over the extensions `*.mp4`, `*.mp3`, `*.mkv`. -/
def run_application_or_media (env : Env) (app folder : Option String) :
    Except String Envelope :=
  pyTry
    (let tryMedia : Except String Envelope := do
      let fdr := if pyTruthyOpt folder then folder.getD "" else pathJoin env.home "Videos"
      match env.glob fdr "*.mp4" with
      | f :: _ => do
          let _ ← env.startfile f
          pure [("ok", Value.vBool true), ("opened", Value.vStr f)]
      | [] =>
        match env.glob fdr "*.mp3" with
        | f :: _ => do
            let _ ← env.startfile f
            pure [("ok", Value.vBool true), ("opened", Value.vStr f)]
        | [] =>
          match env.glob fdr "*.mkv" with
          | f :: _ => do
              let _ ← env.startfile f
              pure [("ok", Value.vBool true), ("opened", Value.vStr f)]
          | [] => pure (failEnv "No file or app found")
    if pyTruthyOpt app then
      let a := app.getD ""
      match env.which a with
      | some exe => do
          let _ ← pyTry (env.spawnExec exe) (fun _ => env.startfile exe)
          pure [("ok", Value.vBool true), ("ran", Value.vStr exe)]
      | none =>
          if env.pathExists a then do
            let _ ← env.startfile a
            pure [("ok", Value.vBool true), ("opened", Value.vStr a)]
          else tryMedia
    else tryMedia)
  (fun e => .ok (failEnv e))

/-- Embeds `get_battery_info` (Jarvis_window_CTRL.py). -/
def get_battery_info (env : Env) : Except String Envelope :=
  if !env.psutilAvailable then .ok (failEnv "psutil not installed")
  else pyTry (do
    match (← env.battery) with
    | none => pure (failEnv "No battery detected")
    | some b =>
        pure [("ok", Value.vBool true), ("percent", Value.vInt b.percent),
              ("plugged_in", Value.vBool b.power_plugged)])
  (fun e => .ok (failEnv e))

/-- The command `wifi_status` runs. -/
def wifiCmd : List String := ["netsh", "wlan", "show", "interfaces"]

/-- The command `bluetooth_status` runs. -/
def btCmd : List String := ["powershell", "-Command", "Get-PnpDevice -Class Bluetooth"]

/-- Embeds `wifi_status` (Jarvis_window_CTRL.py): no try/except of its own;
always `ok=True` with `output = res.get("stdout")`. -/
def wifi_status (env : Env) : Except String Envelope :=
  let res := _run_async env.spawn wifiCmd
  .ok [("ok", Value.vBool true), ("output", optVal res.stdout)]

/-- Embeds `bluetooth_status` (Jarvis_window_CTRL.py). -/
def bluetooth_status (env : Env) : Except String Envelope :=
  let res := _run_async env.spawn btCmd
  .ok [("ok", Value.vBool true), ("output", optVal res.stdout)]

/-- Embeds `open_quick_settings` (Jarvis_window_CTRL.py). -/
def open_quick_settings (env : Env) (sect : Option String) : Except String Envelope :=
  let uri := "ms-settings:" ++ (if pyTruthyOpt sect then sect.getD "" else "")
  let _ := env.osSystem ("start " ++ uri)
  .ok [("ok", Value.vBool true), ("opened", Value.vStr uri)]

/-- Embeds `open_system_info` (Jarvis_window_CTRL.py). -/
def open_system_info (env : Env) : Except String Envelope :=
  let _ := env.osSystem "msinfo32"
  .ok [("ok", Value.vBool true), ("action", Value.vStr "opened_system_info")]

/-- Embeds the `search_url` construction in `open_common_app`
(Jarvis_window_CTRL.py line 315): only spaces are replaced, by `+`. -/
def search_url (query : String) : String :=
  "https://www.google.com/search?q=" ++ pyReplaceChar ' ' "+" query

/-- The normalized app names `open_common_app` recognizes. -/
def supportedApps : List String :=
  ["chrome", "youtube", "notepad", "vscode", "vs code", "cursor", "whatsapp",
   "google", "search"]

/-- Embeds `open_common_app` (Jarvis_window_CTRL.py): the app name is
lowercased and stripped before dispatch; unknown names yield
`{"ok": False, "error": f"Unsupported app: \x7bapp\x7d"}`. -/
def open_common_app (env : Env) (app : String) (query : Option String) :
    Except String Envelope :=
  let a := pyStrip (pyLower app)
  pyTry (
    if a == "chrome" then do
      let _ ← env.startfile "chrome"
      pure [("ok", Value.vBool true), ("opened", Value.vStr "Google Chrome")]
    else if a == "youtube" then do
      let _ ← env.browserOpen "https://www.youtube.com"
      pure [("ok", Value.vBool true), ("opened", Value.vStr "YouTube")]
    else if a == "notepad" then do
      let _ ← env.startfile "notepad.exe"
      pure [("ok", Value.vBool true), ("opened", Value.vStr "Notepad")]
    else if a == "vscode" || a == "vs code" then do
      let _ ← env.startfile "code"
      pure [("ok", Value.vBool true), ("opened", Value.vStr "Visual Studio Code")]
    else if a == "cursor" then do
      let _ ← env.startfile "cursor"
      pure [("ok", Value.vBool true), ("opened", Value.vStr "Cursor Editor")]
    else if a == "whatsapp" then do
      let _ ← env.browserOpen "https://web.whatsapp.com/"
      pure [("ok", Value.vBool true), ("opened", Value.vStr "WhatsApp Web")]
    else if a == "google" || a == "search" then
      match query with
      | q =>
        if !pyTruthyOpt q then do
          let _ ← env.browserOpen "https://www.google.com"
          pure [("ok", Value.vBool true), ("opened", Value.vStr "Google Home")]
        else do
          let url := search_url (q.getD "")
          let _ ← env.browserOpen url
          pure [("ok", Value.vBool true), ("opened", Value.vStr url)]
    else
      pure [("ok", Value.vBool false), ("error", Value.vStr ("Unsupported app: " ++ a))])
  (fun e => .ok (failEnv e))

/-- Embeds `capture_photo` (Jarvis_window_CTRL.py). -/
def capture_photo (env : Env) (filename : Option String) (camera_index : Int) :
    Except String Envelope :=
  if !env.cv2Available then .ok (failEnv "opencv (cv2) not installed")
  else pyTry (do
    let _ ← env.mkPhotoDir
    let fn := if pyTruthyOpt filename then filename.getD ""
              else "photo_" ++ toString env.loopTimeMs ++ ".jpg"
    let savePath := pathJoin (pathJoin (pathJoin env.home "Pictures") "JarvisPhotos") fn
    match env.capture camera_index with
    | .notAvailable => pure (failEnv "Camera not available")
    | .readFailed => pure (failEnv "Failed to read from camera")
    | .saved => pure [("ok", Value.vBool true), ("path", Value.vStr savePath)]
    | .raised e => Except.error e)
  (fun e => .ok (failEnv e))

/-- Embeds `safe_text = message.replace(' ', '%20')` in
`send_whatsapp_message` (Jarvis_window_CTRL.py line 383). -/
def whatsapp_safe_text (message : String) : String :=
  pyReplaceChar ' ' "%20" message

/-- Embeds the `whatsapp_url` construction in `send_whatsapp_message`
(Jarvis_window_CTRL.py line 384). -/
def whatsapp_url (phone_number message : String) : String :=
  "https://api.whatsapp.com/send?phone=" ++ phone_number ++ "&text=" ++
    whatsapp_safe_text message

/-- Embeds `send_whatsapp_message` (Jarvis_window_CTRL.py). -/
def send_whatsapp_message (env : Env) (phone_number message : String) :
    Except String Envelope :=
  pyTry (do
    if !pyTruthyOpt (some phone_number) || !pyTruthyOpt (some message) then
      pure (failEnv "Phone number and message required")
    else do
      let _ ← env.browserOpen (whatsapp_url phone_number message)
      pure [("ok", Value.vBool true), ("sent_to", Value.vStr phone_number),
            ("message", Value.vStr message)])
  (fun e => .ok (failEnv e))

/-- The last component of a path (after both separators), like `Path(p).name`. -/
def pathName (p : String) : String :=
  String.mk (p.data.foldl (fun acc c => if c == '/' || c == '\\' then [] else acc ++ [c]) [])

/-- Index of the last `'.'` in a character list, if any. -/
def lastDotIdx (cs : List Char) : Option Nat :=
  match cs.reverse.findIdx? (fun c => c == '.') with
  | none => none
  | some j => some (cs.length - 1 - j)

/-- Embeds `Path(p).suffix`: the final component's text from its last dot,
empty when the dot is leading, trailing or absent. -/
def pathSuffix (p : String) : String :=
  let name := pathName p
  match lastDotIdx name.data with
  | none => ""
  | some i =>
      if 0 < i ∧ i < name.length - 1 then String.mk (name.data.drop i) else ""

/-- The extensions `read_any_file` dispatches to the plain-text reader. -/
def textExtensions : List String :=
  [".txt", ".py", ".js", ".html", ".css", ".json", ".xml", ".csv", ".log"]

/-- Embeds `read_text_file` (agent.py): decoded content, or an error string
from the encoding cascade, never an exception. -/
def read_text_file (env : Env) (file_path : String) : String :=
  match env.readText file_path with
  | .ok c => c
  | .decodeFailAll e => "Error reading text file with multiple encodings: " ++ e
  | .otherErr e => "Error reading text file: " ++ e

/-- Embeds `read_pdf_file` (agent.py). -/
def read_pdf_file (env : Env) (file_path : String) : String :=
  if !env.pdfSupport then
    "PDF support not available. Please install PyMuPDF: pip install PyMuPDF"
  else
    match env.readPdf file_path with
    | .ok t => t
    | .error e => "Error reading PDF: " ++ e

/-- Embeds `read_word_file` (agent.py). -/
def read_word_file (env : Env) (file_path : String) : String :=
  if !env.docxSupport then
    "Word document support not available. Please install python-docx: pip install python-docx"
  else
    match env.readDocx file_path with
    | .ok t => t
    | .error e => "Error reading Word document: " ++ e

/-- Embeds `read_any_file` (agent.py): existence check, then dispatch on the
lowercased suffix, with a plain-text fallback for unknown extensions. -/
def read_any_file (env : Env) (file_path : String) : String :=
  if !env.pathExists file_path then "File not found: " ++ file_path
  else
    let ext := pyLower (pathSuffix file_path)
    if ext ∈ textExtensions then read_text_file env file_path
    else if ext == ".pdf" then read_pdf_file env file_path
    else if ext == ".docx" then read_word_file env file_path
    else if ext == ".doc" then
      "Unsupported file format: .doc. Please convert to .docx or .pdf. The python-docx library does not support the legacy .doc format."
    else
      let result := read_text_file env file_path
      if strContains result "Error reading text file" then
        "Unsupported file format: " ++ ext ++ ". Supported formats: .txt, .pdf, .docx, .py, .js, .html, .css, .json, .xml, .csv, .log"
      else result

/-- Embeds `read_screen_once` (agent.py): missing OCR engine yields the
startup message; any exception in the capture/OCR pipeline is caught into an
error string; empty OCR output is replaced by a "no text" message. -/
def read_screen_once (env : Env) : String :=
  if !env.tesseractPath then env.tesseractMsg
  else
    match env.grabScreen with
    | .error e => "Error reading screen: " ++ e
    | .ok text =>
        if pyStrip text == "" then
          "No text detected on screen. Make sure text is visible and not too small."
        else pyStrip text

/-- Embeds `read_specific_area` (agent.py). -/
def read_specific_area (env : Env) (x y width height : Int) : String :=
  if !env.tesseractPath then env.tesseractMsg
  else
    match env.grabArea x y width height with
    | .error e => "Error reading screen area: " ++ e
    | .ok text =>
        if pyStrip text == "" then "No text detected in the specified area."
        else pyStrip text

/-- Embeds `read_file_tool` (agent.py): content containing `"Error"`,
`"not found"` or `"not available"` is reported in the failure form;
otherwise content longer than 1000 characters is previewed with the first
1000 characters, a truncation marker and the full length. -/
def read_file_tool (env : Env) (file_path : String) : Except String String :=
  pyTry (do
    let content := read_any_file env file_path
    if strContains content "Error" || strContains content "not found" ||
        strContains content "not available" then
      pure ("❌ " ++ content)
    else if content.length > 1000 then
      pure ("📄 File content (first 1000 chars):\n" ++ pyTake 1000 content ++
            "...\n💡 Full content has " ++ toString content.length ++ " characters")
    else
      pure ("📄 File content:\n" ++ content))
  (fun e => .ok ("❌ Error reading file: " ++ e))

/-- Embeds `read_screen_tool` (agent.py): bound 800. -/
def read_screen_tool (env : Env) : Except String String :=
  pyTry (do
    let text := read_screen_once env
    if strContains text "Error" || strContains text "not installed" then
      pure ("❌ " ++ text)
    else if text.length > 800 then
      pure ("📺 Screen text (first 800 chars):\n" ++ pyTake 800 text ++
            "...\n💡 Full text has " ++ toString text.length ++ " characters")
    else
      pure ("📺 Screen text:\n" ++ text))
  (fun e => .ok ("❌ Error reading screen: " ++ e))

/-- Embeds `read_screen_area_tool` (agent.py): bound 500. -/
def read_screen_area_tool (env : Env) (x y width height : Int) : Except String String :=
  pyTry (do
    let text := read_specific_area env x y width height
    if strContains text "Error" || strContains text "not installed" then
      pure ("❌ " ++ text)
    else if text.length > 500 then
      pure ("📺 Area text (first 500 chars):\n" ++ pyTake 500 text ++
            "...\n💡 Full text has " ++ toString text.length ++ " characters")
    else
      pure ("📺 Area text:\n" ++ text))
  (fun e => .ok ("❌ Error reading screen area: " ++ e))

/-- Embeds `list_supported_formats_tool` (agent.py). -/
def list_supported_formats_tool (env : Env) : Except String String :=
  let base := "📚 Supported file formats:\n" ++
    "\nText Files: .txt, .py, .js, .html, .css, .json, .xml, .csv, .log" ++
    "\nPDF Files: .pdf" ++
    "\nWord Documents: .docx, .doc" ++
    "\nScreen Reading: OCR for any text on screen"
  let r1 := if !env.pdfSupport then
    base ++ "\n\n⚠️ PDF support: Not available (install PyMuPDF)" else base
  let r2 := if !env.docxSupport then
    r1 ++ "\n⚠️ Word support: Not available (install python-docx)" else r1
  let r3 := if !env.tesseractPath then
    r2 ++ "\n⚠️ OCR support: Not available (install Tesseract OCR)" else r2
  .ok r3

/-- A concrete healthy host used by witnesses: every primitive succeeds. -/
def baseEnv : Env where
  spawn := fun _ => .ran 0 "out" "err"
  startfile := fun _ => .ok ()
  browserOpen := fun _ => .ok ()
  osSystem := fun _ => 0
  setSuspendState := .ok true
  lockWorkStation := .ok ()
  home := "C:/Users/test"
  cwd := "C:/work"
  resolve := fun s => s
  pathExists := fun _ => true
  isDir := fun _ => true
  iterdir := fun _ => .ok ["a.txt"]
  rglobPdfs := fun _ => ["doc.pdf"]
  which := fun _ => none
  spawnExec := fun _ => .ok ()
  glob := fun _ _ => []
  psutilAvailable := true
  battery := .ok (some ⟨50, true⟩)
  cv2Available := true
  loopTimeMs := 0
  mkPhotoDir := .ok ()
  capture := fun _ => .saved
  tesseractPath := true
  tesseractMsg := ""
  grabScreen := .ok "screen text"
  grabArea := fun _ _ _ _ => .ok "area text"
  pdfSupport := true
  docxSupport := true
  readPdf := fun _ => .ok "pdf"
  readDocx := fun _ => .ok "docx"
  readText := fun _ => .ok "hello"

/-- A host where every subprocess fails to start. -/
def c1Env : Env := { baseEnv with spawn := fun _ => .exn "WinError 2: netsh not found" }

/-- A second host with failing subprocesses, for the amended C1 witness. -/
def c1WEnv : Env := { baseEnv with spawn := fun _ => .exn "boom" }

/-- A host where `shutdown /a` exits with code 1116 (nothing to cancel). -/
def c2Env : Env :=
  { baseEnv with
    spawn := fun _ => SpawnOutcome.ran 1116 ""
      "Unable to abort the system shutdown because no shutdown was in progress." }

/-- A host whose path resolver maps relative paths to a distinct absolute form. -/
def c5Env : Env :=
  { baseEnv with resolve := fun s => "C:/resolved/" ++ s, iterdir := fun _ => .ok ["x.txt"] }

/-- A filesystem in which the default new-folder location does not exist. -/
def c6FS : FS := { dirs := ["C:/Users/test"], files := [] }

/-- A host where the wifi/bluetooth subprocess fails to start. -/
def c9Env : Env := { baseEnv with spawn := fun _ => .exn "FileNotFoundError: netsh" }

/-- A host with a readable text file whose own content contains "Error". -/
def c10Env : Env := { baseEnv with readText := fun _ => .ok "The Error log is empty" }

/-- A 1505-character file content beginning with "Error": longer than the
1000-character bound while containing an error-marker substring. -/
def longErrorContent : String :=
  String.mk ('E' :: 'r' :: 'r' :: 'o' :: 'r' :: List.replicate 1500 'a')

/-- A host with a readable text file whose long content contains "Error". -/
def c4Env : Env := { baseEnv with readText := fun _ => .ok longErrorContent }

/-! ## Helper lemmas -/

/-- A computation guarded by a catch-all whose handler returns a value never
propagates an exception. -/
theorem noRaise_pyTry_ok {α : Type} (b : Except String α) (f : String → α) :
    noRaise (pyTry b (fun e => .ok (f e))) = true := by
  cases b <;> rfl

/-! ## C9 -/

/-- C9: `wifi_status` and `bluetooth_status` return `ok=True` for every
outcome of the underlying command; when the subprocess fails to start, the
`_run_async` dictionary has no `stdout` entry, so the tools return Success
with `output = None` rather than a Failure naming the error. -/
theorem c9_status_tools_always_ok :
    (∀ env : Env, wifi_status env =
      .ok [("ok", Value.vBool true), ("output", optVal (_run_async env.spawn wifiCmd).stdout)]) ∧
    (∀ env : Env, bluetooth_status env =
      .ok [("ok", Value.vBool true), ("output", optVal (_run_async env.spawn btCmd).stdout)]) ∧
    (∀ (env : Env) (e : String), env.spawn wifiCmd = SpawnOutcome.exn e →
      (_run_async env.spawn wifiCmd).stdout = none ∧
      wifi_status env = .ok [("ok", Value.vBool true), ("output", Value.vNone)]) ∧
    (∀ (env : Env) (e : String), env.spawn btCmd = SpawnOutcome.exn e →
      (_run_async env.spawn btCmd).stdout = none ∧
      bluetooth_status env = .ok [("ok", Value.vBool true), ("output", Value.vNone)]) := by
  refine ⟨fun env => rfl, fun env => rfl, ?_, ?_⟩ <;>
    · intro env e h
      constructor <;> simp [wifi_status, bluetooth_status, _run_async, h, optVal]

/-- C9 witness: on a host where the subprocess fails to start, `wifi_status`
is Success with `output = None`. -/
theorem c9_witness :
    wifi_status c9Env = .ok [("ok", Value.vBool true), ("output", Value.vNone)] :=
  (c9_status_tools_always_ok.2.2.1 c9Env "FileNotFoundError: netsh" rfl).2

/-! ## C10 -/

/-- C10: `read_file_tool` classifies its result as the failure form
(prefixed with the cross mark) whenever the content returned by
`read_any_file` contains `"Error"`, `"not found"` or `"not available"`. -/
theorem c10_error_substring_classification :
    ∀ (env : Env) (fp content : String), read_any_file env fp = content →
      (strContains content "Error" || strContains content "not found" ||
        strContains content "not available") = true →
      read_file_tool env fp = .ok ("❌ " ++ content) := by
  intro env fp content hc h
  simp only [read_file_tool, hc, h]
  rfl

/-- C10 witness: a file that is read successfully but whose own text
contains "Error" is reported as a failure instead of as file content. -/
theorem c10_witness :
    read_any_file c10Env "notes.txt" = "The Error log is empty" ∧
    read_file_tool c10Env "notes.txt" = .ok ("❌ The Error log is empty") :=
  ⟨rfl, c10_error_substring_classification c10Env "notes.txt" "The Error log is empty"
    rfl (by decide)⟩

/-! ## C8 -/

/-- C8: the read-only query tools are deterministic in the host state: two
invocations against hosts agreeing on the state they read (battery sensor,
psutil availability, subprocess behaviour) yield equal results, so two
successive calls with no intervening change yield equal payloads. -/
theorem c8_query_tools_deterministic :
    ∀ env1 env2 : Env,
      env1.psutilAvailable = env2.psutilAvailable → env1.battery = env2.battery →
      env1.spawn = env2.spawn →
      get_battery_info env1 = get_battery_info env2 ∧
      wifi_status env1 = wifi_status env2 ∧
      bluetooth_status env1 = bluetooth_status env2 := by
  intro env1 env2 h1 h2 h3
  refine ⟨?_, ?_, ?_⟩ <;>
    simp only [get_battery_info, wifi_status, bluetooth_status, h1, h2, h3]

/-- C8 witness: the three query tools on an unchanged concrete host. -/
theorem c8_witness :
    get_battery_info baseEnv = get_battery_info baseEnv ∧
    wifi_status baseEnv = wifi_status baseEnv ∧
    bluetooth_status baseEnv = bluetooth_status baseEnv :=
  c8_query_tools_deterministic baseEnv baseEnv rfl rfl rfl

/-! ## C4 -/

set_option maxRecDepth 100000 in
/-- C4 counterexample: a successfully read payload of 1505 characters whose
own text contains "Error" is not truncated: `read_file_tool` returns it in
full through the failure branch, with no "..." truncation marker and no
character-count report, although the payload exceeds the documented bound
of 1000 characters. -/
theorem c4_counterexample :
    longErrorContent.length = 1505 ∧
    read_any_file c4Env "log.txt" = longErrorContent ∧
    read_file_tool c4Env "log.txt" = .ok ("❌ " ++ longErrorContent) ∧
    strContains ("❌ " ++ longErrorContent) "..." = false ∧
    strContains ("❌ " ++ longErrorContent) "💡 Full content has" = false :=
  ⟨by decide, rfl, rfl, by decide, by decide⟩

/-- C4 amended: the truncation law holds exactly for the payloads the tool
does not classify as an error. A payload free of the error-marker
substrings ("Error"/"not found"/"not available" for the file tool,
"Error"/"not installed" for the screen tools) is previewed to the first B
characters with the fixed "..." marker and the untruncated character count
when longer than B (1000/800/500), and returned in full without the marker
when within B; a payload containing one of those substrings is returned in
full through the failure branch, whatever its length, with no marker or
count. -/
theorem c4_truncation_law :
    (∀ (env : Env) (fp content : String), read_any_file env fp = content →
      (strContains content "Error" = false → strContains content "not found" = false →
        strContains content "not available" = false →
        (content.length > 1000 →
          read_file_tool env fp = .ok ("📄 File content (first 1000 chars):\n" ++
            pyTake 1000 content ++ "...\n💡 Full content has " ++
            toString content.length ++ " characters") ∧
          (pyTake 1000 content).length ≤ 1000) ∧
        (content.length ≤ 1000 →
          read_file_tool env fp = .ok ("📄 File content:\n" ++ content))) ∧
      ((strContains content "Error" || strContains content "not found" ||
          strContains content "not available") = true →
        read_file_tool env fp = .ok ("❌ " ++ content))) ∧
    (∀ (env : Env) (text : String), read_screen_once env = text →
      (strContains text "Error" = false → strContains text "not installed" = false →
        (text.length > 800 →
          read_screen_tool env = .ok ("📺 Screen text (first 800 chars):\n" ++
            pyTake 800 text ++ "...\n💡 Full text has " ++
            toString text.length ++ " characters") ∧
          (pyTake 800 text).length ≤ 800) ∧
        (text.length ≤ 800 →
          read_screen_tool env = .ok ("📺 Screen text:\n" ++ text))) ∧
      ((strContains text "Error" || strContains text "not installed") = true →
        read_screen_tool env = .ok ("❌ " ++ text))) ∧
    (∀ (env : Env) (x y w h : Int) (text : String), read_specific_area env x y w h = text →
      (strContains text "Error" = false → strContains text "not installed" = false →
        (text.length > 500 →
          read_screen_area_tool env x y w h = .ok ("📺 Area text (first 500 chars):\n" ++
            pyTake 500 text ++ "...\n💡 Full text has " ++
            toString text.length ++ " characters") ∧
          (pyTake 500 text).length ≤ 500) ∧
        (text.length ≤ 500 →
          read_screen_area_tool env x y w h = .ok ("📺 Area text:\n" ++ text))) ∧
      ((strContains text "Error" || strContains text "not installed") = true →
        read_screen_area_tool env x y w h = .ok ("❌ " ++ text))) := by
  refine ⟨?_, ?_, ?_⟩
  · intro env fp content hc
    constructor
    · intro h1 h2 h3
      constructor
      · intro hlen
        constructor
        · simp only [read_file_tool, hc, h1, h2, h3]
          simp [hlen, pyTry]
          rfl
        · simp only [pyTake, String.length]
          simp [List.length_take]
      · intro hlen
        simp only [read_file_tool, hc, h1, h2, h3]
        simp [pyTry, Nat.not_lt.mpr hlen]
        rfl
    · intro herr
      simp only [read_file_tool, hc, herr]
      rfl
  · intro env text ht
    constructor
    · intro h1 h2
      constructor
      · intro hlen
        constructor
        · simp only [read_screen_tool, ht, h1, h2]
          simp [hlen, pyTry]
          rfl
        · simp only [pyTake, String.length]
          simp [List.length_take]
      · intro hlen
        simp only [read_screen_tool, ht, h1, h2]
        simp [pyTry, Nat.not_lt.mpr hlen]
        rfl
    · intro herr
      simp only [read_screen_tool, ht, herr]
      rfl
  · intro env x y w h text ht
    constructor
    · intro h1 h2
      constructor
      · intro hlen
        constructor
        · simp only [read_screen_area_tool, ht, h1, h2]
          simp [hlen, pyTry]
          rfl
        · simp only [pyTake, String.length]
          simp [List.length_take]
      · intro hlen
        simp only [read_screen_area_tool, ht, h1, h2]
        simp [pyTry, Nat.not_lt.mpr hlen]
        rfl
    · intro herr
      simp only [read_screen_area_tool, ht, herr]
      rfl

/-- C4 witness: a short error-free file payload is returned in full with no
marker. -/
theorem c4_witness :
    read_file_tool baseEnv "a.txt" = .ok ("📄 File content:\nhello") :=
  (((c4_truncation_law.1 baseEnv "a.txt" "hello" rfl).1 (by decide) (by decide)
    (by decide)).2 (by decide))

/-! ## C6 -/

/-- C6: `create_folder` with no path, on a host where the default folder
(home joined with "NewFolder_Jarvis") does not yet exist, returns Success
with payload path equal to the resolved default location, and an immediately
repeated identical call is also Success with the same payload (no error on
already-exists). -/
theorem c6_create_folder_default_idempotent :
    ∀ (env : Env) (fs : FS),
      pathJoin env.home "NewFolder_Jarvis" ∉ fs.dirs →
      pathJoin env.home "NewFolder_Jarvis" ∉ fs.files →
      create_folder env fs none =
        .ok ([("ok", Value.vBool true),
              ("path", Value.vStr (env.resolve (pathJoin env.home "NewFolder_Jarvis")))],
             { fs with dirs := pathJoin env.home "NewFolder_Jarvis" :: fs.dirs }) ∧
      create_folder env { fs with dirs := pathJoin env.home "NewFolder_Jarvis" :: fs.dirs } none =
        .ok ([("ok", Value.vBool true),
              ("path", Value.vStr (env.resolve (pathJoin env.home "NewFolder_Jarvis")))],
             { fs with dirs := pathJoin env.home "NewFolder_Jarvis" :: fs.dirs }) := by
  intro env fs h1 h2
  constructor <;>
    simp [create_folder, FS.mkdirParentsExistOk, pyTruthyOpt, pyTry, h1, h2]

/-- C6 witness: both calls succeed on a concrete host, with the payload path
equal to the resolved default location. -/
theorem c6_witness :
    create_folder baseEnv c6FS none =
      .ok ([("ok", Value.vBool true), ("path", Value.vStr "C:/Users/test/NewFolder_Jarvis")],
           { c6FS with dirs := "C:/Users/test/NewFolder_Jarvis" :: c6FS.dirs }) ∧
    create_folder baseEnv { c6FS with dirs := "C:/Users/test/NewFolder_Jarvis" :: c6FS.dirs } none =
      .ok ([("ok", Value.vBool true), ("path", Value.vStr "C:/Users/test/NewFolder_Jarvis")],
           { c6FS with dirs := "C:/Users/test/NewFolder_Jarvis" :: c6FS.dirs }) :=
  c6_create_folder_default_idempotent baseEnv c6FS (by decide) (by decide)

/-! ## C1 -/

/-- C1 counterexample: on a host where the subprocess behind `wifi_status`
fails to start — a failure path (execution error / missing dependency) —
the handler returns a Success envelope (`ok=True`, `output=None`), not a
Failure value, refuting the claim that every failure path results in a
returned Failure value. -/
theorem c1_counterexample :
    (_run_async c1Env.spawn wifiCmd).error = some "WinError 2: netsh not found" ∧
    wifi_status c1Env = .ok [("ok", Value.vBool true), ("output", Value.vNone)] ∧
    envGet [("ok", Value.vBool true), ("output", Value.vNone)] "ok" =
      some (Value.vBool true) :=
  ⟨rfl, rfl, rfl⟩

/-- C1 amended: no tool handler ever propagates a raised exception to its
caller — every handler is total and returns a value for every input and
host state; however, not every failure path yields a Failure value:
`wifi_status` and `bluetooth_status` return `ok=True` with `output=None`
when their subprocess fails to start. -/
theorem c1_amended_no_handler_raises :
    (∀ (env : Env) (force : Bool), noRaise (shutdown_system env force) = true) ∧
    (∀ (env : Env) (force : Bool), noRaise (restart_system env force) = true) ∧
    (∀ env : Env, noRaise (cancel_shutdown env) = true) ∧
    (∀ env : Env, noRaise (sleep_system env) = true) ∧
    (∀ env : Env, noRaise (lock_screen env) = true) ∧
    (∀ (env : Env) (fs : FS) (p : Option String), noRaise (create_folder env fs p) = true) ∧
    (∀ (env : Env) (p : Option String), noRaise (list_folder_items env p) = true) ∧
    (∀ (env : Env) (p : Option String), noRaise (open_file env p) = true) ∧
    (∀ (env : Env) (f : Option String), noRaise (open_pdf_in_folder env f) = true) ∧
    (∀ (env : Env) (a f : Option String), noRaise (run_application_or_media env a f) = true) ∧
    (∀ env : Env, noRaise (get_battery_info env) = true) ∧
    (∀ env : Env, noRaise (wifi_status env) = true) ∧
    (∀ env : Env, noRaise (bluetooth_status env) = true) ∧
    (∀ (env : Env) (s : Option String), noRaise (open_quick_settings env s) = true) ∧
    (∀ env : Env, noRaise (open_system_info env) = true) ∧
    (∀ (env : Env) (a : String) (q : Option String), noRaise (open_common_app env a q) = true) ∧
    (∀ (env : Env) (fn : Option String) (ci : Int), noRaise (capture_photo env fn ci) = true) ∧
    (∀ (env : Env) (ph m : String), noRaise (send_whatsapp_message env ph m) = true) ∧
    (∀ (env : Env) (fp : String), noRaise (read_file_tool env fp) = true) ∧
    (∀ env : Env, noRaise (read_screen_tool env) = true) ∧
    (∀ (env : Env) (x y w h : Int), noRaise (read_screen_area_tool env x y w h) = true) ∧
    (∀ env : Env, noRaise (list_supported_formats_tool env) = true) ∧
    (∀ (env : Env) (e : String), env.spawn wifiCmd = SpawnOutcome.exn e →
      wifi_status env = .ok [("ok", Value.vBool true), ("output", Value.vNone)]) ∧
    (∀ (env : Env) (e : String), env.spawn btCmd = SpawnOutcome.exn e →
      bluetooth_status env = .ok [("ok", Value.vBool true), ("output", Value.vNone)]) := by
  refine ⟨fun env force => noRaise_pyTry_ok _ _, fun env force => noRaise_pyTry_ok _ _,
    fun env => noRaise_pyTry_ok _ _, fun env => noRaise_pyTry_ok _ _,
    fun env => noRaise_pyTry_ok _ _, fun env fs p => noRaise_pyTry_ok _ _,
    fun env p => noRaise_pyTry_ok _ _, fun env p => noRaise_pyTry_ok _ _,
    fun env f => noRaise_pyTry_ok _ _, fun env a f => noRaise_pyTry_ok _ _,
    ?battery, fun env => rfl, fun env => rfl, fun env s => rfl, fun env => rfl,
    fun env a q => noRaise_pyTry_ok _ _, ?photo,
    fun env ph m => noRaise_pyTry_ok _ _, fun env fp => noRaise_pyTry_ok _ _,
    fun env => noRaise_pyTry_ok _ _, fun env x y w h => noRaise_pyTry_ok _ _,
    fun env => rfl, ?wifiExn, ?btExn⟩
  case battery =>
    intro env
    unfold get_battery_info
    split
    · rfl
    · exact noRaise_pyTry_ok _ _
  case photo =>
    intro env fn ci
    unfold capture_photo
    split
    · rfl
    · exact noRaise_pyTry_ok _ _
  case wifiExn =>
    intro env e h
    simp [wifi_status, _run_async, h, optVal]
  case btExn =>
    intro env e h
    simp [bluetooth_status, _run_async, h, optVal]

/-- C1 witness: the amended theorem instantiated on a concrete host whose
subprocesses fail to start. -/
theorem c1_witness :
    noRaise (wifi_status c1WEnv) = true ∧
    wifi_status c1WEnv = .ok [("ok", Value.vBool true), ("output", Value.vNone)] :=
  ⟨c1_amended_no_handler_raises.2.2.2.2.2.2.2.2.2.2.2.1 c1WEnv,
   (c1_amended_no_handler_raises.2.2.2.2.2.2.2.2.2.2.2.2.2.2.2.2.2.2.2.2.2.2.1
     c1WEnv "boom" rfl)⟩

/-! ## C2 -/

/-- C2 counterexample: on a host where `shutdown /a` exits with the benign
non-zero code 1116 (nothing to cancel), `cancel_shutdown` returns a Failure
envelope (`ok=False` with the stderr text), not Success with an
informational payload as the claim states. -/
theorem c2_counterexample :
    cancel_shutdown c2Env =
      .ok [("ok", Value.vBool false),
           ("error", Value.vStr
             "Unable to abort the system shutdown because no shutdown was in progress.")] ∧
    envGet [("ok", Value.vBool false),
            ("error", Value.vStr
              "Unable to abort the system shutdown because no shutdown was in progress.")] "ok" =
      some (Value.vBool false) :=
  ⟨rfl, rfl⟩

/-- C2 amended: `cancel_shutdown` returns Success only for exit code 0; any
non-zero exit code — including the expected "nothing to cancel" case —
yields `ok=False` with `error` set to the command's stripped stderr, or its
stdout when the stderr is empty. -/
theorem c2_amended_nonzero_is_failure :
    ∀ (env : Env) (rc : Int) (out err : String),
      env.spawn ["shutdown", "/a"] = SpawnOutcome.ran rc out err →
      (rc ≠ 0 → cancel_shutdown env =
        .ok [("ok", Value.vBool false),
             ("error", optVal (pyOrOpt (some (pyStrip err)) (some (pyStrip out))))]) ∧
      (rc = 0 → cancel_shutdown env =
        .ok [("ok", Value.vBool true), ("action", Value.vStr "cancel_shutdown")]) := by
  intro env rc out err h
  constructor <;> intro hrc <;>
    simp [cancel_shutdown, _run_async, pyTry, h, hrc] <;> rfl

/-- C2 witness: the amended theorem instantiated at exit code 0 on a
concrete host. -/
theorem c2_witness :
    cancel_shutdown baseEnv =
      .ok [("ok", Value.vBool true), ("action", Value.vStr "cancel_shutdown")] :=
  (c2_amended_nonzero_is_failure baseEnv 0 "out" "err" rfl).2 rfl

/-! ## C3 -/

/-- C3 counterexample: user text containing the URL-reserved character `&`
is embedded verbatim in both the Google search URL (opened and reported in
the payload) and the WhatsApp URL; it is not percent-encoded as `%26`, so
the constructed URLs do not percent-encode all URL-reserved characters. -/
theorem c3_counterexample :
    open_common_app baseEnv "google" (some "a&b c") =
      .ok [("ok", Value.vBool true),
           ("opened", Value.vStr "https://www.google.com/search?q=a&b+c")] ∧
    strContains "https://www.google.com/search?q=a&b+c" "&b" = true ∧
    strContains "https://www.google.com/search?q=a&b+c" "%26" = false ∧
    whatsapp_url "918765432100" "hello & bye" =
      "https://api.whatsapp.com/send?phone=918765432100&text=hello%20&%20bye" ∧
    strContains "hello%20&%20bye" "%26" = false :=
  ⟨rfl, by decide, by decide, rfl, by decide⟩

/-- C3 amended: the URLs constructed from user-supplied text replace only
spaces — `+` in the Google search URL, `%20` in the WhatsApp URL — and all
other characters of the user text are passed through unchanged; the handlers
open exactly these URLs and succeed when the browser call succeeds. -/
theorem c3_amended_spaces_only_encoding :
    ∀ (env : Env) (q phone msg : String),
      search_url q = "https://www.google.com/search?q=" ++ pyReplaceChar ' ' "+" q ∧
      whatsapp_url phone msg =
        "https://api.whatsapp.com/send?phone=" ++ phone ++ "&text=" ++
          pyReplaceChar ' ' "%20" msg ∧
      (q ≠ "" → env.browserOpen (search_url q) = .ok () →
        open_common_app env "google" (some q) =
          .ok [("ok", Value.vBool true), ("opened", Value.vStr (search_url q))]) ∧
      (phone ≠ "" → msg ≠ "" → env.browserOpen (whatsapp_url phone msg) = .ok () →
        send_whatsapp_message env phone msg =
          .ok [("ok", Value.vBool true), ("sent_to", Value.vStr phone),
               ("message", Value.vStr msg)]) := by
  intro env q phone msg
  refine ⟨rfl, rfl, ?_, ?_⟩
  · intro hq hb
    have ha : pyStrip (pyLower "google") = "google" := by decide
    simp only [open_common_app, ha]
    simp [pyTruthyOpt, hq, hb, pyTry]
  · intro hphone hmsg hb
    simp only [send_whatsapp_message]
    simp [pyTruthyOpt, hphone, hmsg, hb, pyTry]

/-- C3 witness: the amended theorem instantiated on a concrete host and
concrete query/message text. -/
theorem c3_witness :
    open_common_app baseEnv "google" (some "lean theorem prover") =
      .ok [("ok", Value.vBool true),
           ("opened", Value.vStr (search_url "lean theorem prover"))] ∧
    send_whatsapp_message baseEnv "918765432100" "hello there" =
      .ok [("ok", Value.vBool true), ("sent_to", Value.vStr "918765432100"),
           ("message", Value.vStr "hello there")] :=
  ⟨(c3_amended_spaces_only_encoding baseEnv "lean theorem prover" "p" "m").2.2.1
     (by decide) rfl,
   (c3_amended_spaces_only_encoding baseEnv "q" "918765432100" "hello there").2.2.2
     (by decide) (by decide) rfl⟩

/-! ## C5 -/

/-- C5 counterexample: `list_folder_items` on an existing directory given by
a relative path returns Success whose `path` payload is the path exactly as
given, while the host resolves that path to a different absolute form — so
the tool does not return the resolved absolute path on Success. -/
theorem c5_counterexample :
    list_folder_items c5Env (some "docs") =
      .ok [("ok", Value.vBool true), ("path", Value.vStr "docs"),
           ("items", Value.vList ["x.txt"])] ∧
    c5Env.resolve "docs" = "C:/resolved/docs" ∧
    ("docs" : String) ≠ "C:/resolved/docs" :=
  ⟨rfl, rfl, by decide⟩

/-- C5 amended: `list_folder_items` validates existence and directory-type
before listing but reports the path as given, unresolved; `open_file`
validates existence when a path is supplied, performs no validation for the
Documents default, and reports the path as given, unresolved;
`create_folder` performs no pre-validation (it delegates to mkdir with
`parents=True, exist_ok=True`) and is the one tool whose Success payload is
the resolved path. -/
theorem c5_amended_validation_and_paths :
    (∀ (env : Env) (fs : FS) (p : String), p ≠ "" → p ∉ fs.files →
      ∃ fs2, create_folder env fs (some p) =
        .ok ([("ok", Value.vBool true), ("path", Value.vStr (env.resolve p))], fs2)) ∧
    (∀ (env : Env) (p : String), p ≠ "" →
      (env.pathExists p = false ∨ env.isDir p = false) →
      list_folder_items env (some p) = .ok (failEnv "Invalid directory")) ∧
    (∀ (env : Env) (p : String) (items : List String), p ≠ "" →
      env.pathExists p = true → env.isDir p = true → env.iterdir p = .ok items →
      list_folder_items env (some p) =
        .ok [("ok", Value.vBool true), ("path", Value.vStr p),
             ("items", Value.vList items)]) ∧
    (∀ (env : Env) (p : String), p ≠ "" → env.pathExists p = false →
      open_file env (some p) = .ok (failEnv ("Path not found: " ++ p))) ∧
    (∀ (env : Env) (p : String), p ≠ "" → env.pathExists p = true →
      env.startfile p = .ok () →
      open_file env (some p) = .ok [("ok", Value.vBool true), ("opened", Value.vStr p)]) ∧
    (∀ env : Env, env.startfile (pathJoin env.home "Documents") = .ok () →
      open_file env none =
        .ok [("ok", Value.vBool true),
             ("opened", Value.vStr (pathJoin env.home "Documents"))]) := by
  refine ⟨?_, ?_, ?_, ?_, ?_, ?_⟩
  · intro env fs p hp hf
    refine ⟨{ fs with dirs := if p ∈ fs.dirs then fs.dirs else p :: fs.dirs }, ?_⟩
    simp [create_folder, FS.mkdirParentsExistOk, pyTruthyOpt, pyTry, hp, hf]
  · intro env p hp hv
    rcases hv with hv | hv <;>
      simp [list_folder_items, pyTruthyOpt, pyTry, hp, hv] <;> rfl
  · intro env p items hp he hd hi
    simp [list_folder_items, pyTruthyOpt, pyTry, hp, he, hd, hi]
  · intro env p hp he
    simp [open_file, pyTruthyOpt, pyTry, hp, he]
    rfl
  · intro env p hp he hs
    cases hd : env.isDir p <;>
      simp [open_file, pyTruthyOpt, pyTry, hp, he, hd, hs]
  · intro env hs
    simp [open_file, pyTruthyOpt, pyTry, hs]

/-- C5 witness: the amended theorem instantiated on a concrete host:
`open_file` with no path opens the Documents default unvalidated, and
`list_folder_items` reports the unresolved path it was given. -/
theorem c5_witness :
    open_file baseEnv none =
      .ok [("ok", Value.vBool true), ("opened", Value.vStr "C:/Users/test/Documents")] ∧
    list_folder_items baseEnv (some "C:/work") =
      .ok [("ok", Value.vBool true), ("path", Value.vStr "C:/work"),
           ("items", Value.vList ["a.txt"])] :=
  ⟨c5_amended_validation_and_paths.2.2.2.2.2 baseEnv rfl,
   c5_amended_validation_and_paths.2.2.1 baseEnv "C:/work" ["a.txt"]
     (by decide) rfl rfl rfl⟩

/-! ## C7 -/

/-- C7 counterexample: an unsupported app name that is not already
lowercased and stripped is reported in its normalized form, so the error
message does not contain the literal app name that was passed. -/
theorem c7_counterexample :
    open_common_app baseEnv "Unsupported_App_XYZ " none =
      .ok [("ok", Value.vBool false),
           ("error", Value.vStr "Unsupported app: unsupported_app_xyz")] ∧
    strContains "Unsupported app: unsupported_app_xyz" "Unsupported_App_XYZ" = false :=
  ⟨rfl, by decide⟩

/-- C7 amended: for every app name whose lowercased, stripped form is
outside the supported set, `open_common_app` returns Failure and the error
message contains that normalized app name (which is the literal passed name
whenever the passed name is already lowercase and stripped, as in the
spec's `unsupported_app_xyz` scenario). -/
theorem c7_amended_unsupported_app :
    ∀ (env : Env) (app : String) (query : Option String),
      pyStrip (pyLower app) ∉ supportedApps →
      open_common_app env app query =
        .ok [("ok", Value.vBool false),
             ("error", Value.vStr ("Unsupported app: " ++ pyStrip (pyLower app)))] ∧
      strContainsP ("Unsupported app: " ++ pyStrip (pyLower app)) (pyStrip (pyLower app)) := by
  intro env app query h
  simp only [supportedApps, List.mem_cons, List.not_mem_nil, or_false, not_or] at h
  obtain ⟨h1, h2, h3, h4, h5, h6, h7, h8, h9⟩ := h
  constructor
  · simp [open_common_app, pyTry, h1, h2, h3, h4, h5, h6, h7, h8, h9]
    rfl
  · exact ⟨"Unsupported app: ", "", by simp⟩

/-- C7 witness: the amended theorem at the spec's concrete scenario, where
the passed name is already normalized and so appears literally in the error
message. -/
theorem c7_witness :
    open_common_app baseEnv "unsupported_app_xyz" none =
      .ok [("ok", Value.vBool false),
           ("error", Value.vStr ("Unsupported app: " ++
             pyStrip (pyLower "unsupported_app_xyz")))] ∧
    strContainsP ("Unsupported app: " ++ pyStrip (pyLower "unsupported_app_xyz"))
      (pyStrip (pyLower "unsupported_app_xyz")) :=
  c7_amended_unsupported_app baseEnv "unsupported_app_xyz" none (by decide)
